import Mathlib

/-!
Verification of the MONAI 201 tutorial notebook
(2d_classification/monai_201.ipynb).

The notebook is straight-line orchestration of framework components with a
fixed configuration.  This file gives a shallow embedding of its
configuration values, its cell ordering, and the observable behaviour of the
framework components it configures (CheckpointSaver, CheckpointLoader,
ClassificationSaver, ValidationHandler).  The framework components themselves
are external, so their observable behaviour is modelled from the
specification's description of them; everything the notebook itself fixes
(paths, hyperparameters, loader settings, cell order) is taken from the
notebook source.
-/

namespace Monai201

/-- Serialized network weights.  The checkpoint payload is opaque to the
notebook, so it is modelled as a list of integers. -/
abbrev Params := List Int

/-- Configuration of a torch DataLoader as the notebook constructs it. -/
structure LoaderConfig where
  batch_size : Nat
  shuffle : Bool
  num_workers : Nat
  deriving DecidableEq

/-- Cell 10: max_epochs = 5. -/
def max_epochs : Nat := 5

/-- Cell 10: save_interval = 2. -/
def save_interval : Nat := 2

/-- Cell 10: out_dir = "./eval". -/
def out_dir : String := "./eval"

/-- Cell 10: densenet121(spatial_dims=2, in_channels=1, out_channels=6); the
number of output channels of the network. -/
def out_channels : Nat := 6

/-- Cell 10: DataLoader(dataset, batch_size=512, shuffle=True, num_workers=4). -/
def trainLoaderConfig : LoaderConfig :=
  { batch_size := 512, shuffle := true, num_workers := 4 }

/-- Cell 10: DataLoader(valdata, batch_size=512, shuffle=False, num_workers=4). -/
def valLoaderConfig : LoaderConfig :=
  { batch_size := 512, shuffle := false, num_workers := 4 }

/-- Cell 18: DataLoader(testdata, batch_size=1, num_workers=0); the shuffle
argument is not passed and defaults to False. -/
def testLoaderConfig : LoaderConfig :=
  { batch_size := 1, shuffle := false, num_workers := 0 }

/-- Name of the environment variable consulted for the data directory. -/
def monaiDataDirVar : String := "MONAI_DATA_DIRECTORY"

/-- Cell 6: directory = os.environ.get("MONAI_DATA_DIRECTORY");
root_dir = tempfile.mkdtemp() if directory is None else directory.
The process environment is a partial map from variable names to values, and
the fresh directory name returned by tempfile.mkdtemp() is passed in. -/
def root_dir (env : String → Option String) (mkdtempResult : String) : String :=
  match env monaiDataDirVar with
  | none => mkdtempResult
  | some d => d

/-- A directory entry as seen by Path.iterdir in cell 16: a name and whether
the entry is a directory. -/
structure DirEntry where
  name : String
  isDir : Bool
  deriving DecidableEq

/-- Cell 16: class_names = sorted(f"{x.name}" for x in dataset_dir.iterdir()
if x.is_dir()).  Python's sorted is modelled by insertion sort over the
lexicographic order on strings; the theorems below establish that the result
is sorted and a permutation of the directory names, which characterises the
sorted list uniquely. -/
def class_names (entries : List DirEntry) : List String :=
  ((entries.filter (fun e => e.isDir)).map (fun e => e.name)).insertionSort (· ≤ ·)

/-- Cell 20: the print loop resolves a predicted index idx by indexing,
class_names[int(float(idx))]; out-of-range indexing raises, modelled by
Option. -/
def resolveClass (names : List String) (idx : Nat) : Option String :=
  names[idx]?

/-- The comma delimiter of the predictions file. -/
def commaChar : Char := ','

/-- Decimal digit character for d < 10. -/
def digitChar (d : Nat) : Char := Char.ofNat (48 + d)

/-- Fuelled decimal printer, accumulating most significant digits last. -/
def natCharsAux : Nat → Nat → List Char → List Char
  | 0, _, acc => acc
  | fuel + 1, n, acc =>
    if n < 10 then digitChar n :: acc
    else natCharsAux fuel (n / 10) (digitChar (n % 10) :: acc)

/-- Decimal representation of a natural number as a character list. -/
def natChars (n : Nat) : List Char := natCharsAux (n + 1) n []

/-- One row of the predictions file.  Modelled from the spec: each row is
"<source_image_path>,<predicted_class_index>".  The row is a character list
so that its column structure can be analysed. -/
def predictionLine (path : List Char) (idx : Nat) : List Char :=
  path ++ [commaChar] ++ natChars idx

/-- Splitting a character list at commas, as numpy loadtxt with delimiter=","
splits a row of the predictions file into its columns (cell 20). -/
def splitOnComma : List Char → List (List Char)
  | [] => [[]]
  | c :: cs =>
    if c = commaChar then [] :: splitOnComma cs
    else
      match splitOnComma cs with
      | [] => [[c]]
      | f :: rest => (c :: f) :: rest

/-- Contents of the files the pipeline writes. -/
inductive FileContent where
  | checkpointFile (p : Params)
  | csvFile (rows : List (List Char))
  | tensorboardEvents
  | datasetArchive
  | datasetFolder
  deriving DecidableEq

/-- A filesystem as a write log, most recent write first. -/
abbrev Fs := List (String × FileContent)

/-- Record a write in the filesystem log. -/
def writeFile (path : String) (c : FileContent) (fs : Fs) : Fs :=
  (path, c) :: fs

/-- Read the most recently written contents of a path, if any. -/
def readFile (fs : Fs) (path : String) : Option FileContent :=
  (fs.find? (fun e => e.1 == path)).map (fun e => e.2)

/-- Modelled from the spec: a checkpoint is "a serialized snapshot of model
parameters persisted to and restored from disk"; restoring reads the file at
the given path and yields its parameters when present. -/
def loadCheckpoint (fs : Fs) (path : String) : Option Params :=
  match readFile fs path with
  | some (FileContent.checkpointFile p) => some p
  | _ => none

/-- Cell 10: CheckpointSaver(save_dir=out_dir, save_dict={"model": model},
save_interval=save_interval, save_final=True, final_filename="checkpoint.pt");
the final checkpoint is written to save_dir joined with final_filename. -/
def finalCheckpointPath : String := out_dir ++ "/" ++ "checkpoint.pt"

/-- Cell 18: CheckpointLoader(load_path=f"{out_dir}/checkpoint.pt",
load_dict={"model": model}); the path the inference stage restores from. -/
def checkpointLoadPath : String := out_dir ++ "/checkpoint.pt"

/-- Default output path of ClassificationSaver.  Modelled from the spec and
the notebook text of cell 19: "the inference results are stored in a file
named predictions.csv"; cell 20 reads "./predictions.csv". -/
def predictionsCsvPath : String := "./predictions.csv"

/-- Directory of the TensorBoard event logs written by the
TensorBoardStatsHandler instances (cell 14 points tensorboard at ./runs). -/
def tensorboardLogPath : String := "./runs"

/-- One optimisation epoch is opaque to the notebook (network, optimizer and
loss are framework components), so it is passed in as a function from current
parameters and epoch number to updated parameters; this folds it over the
max_epochs epochs of a trainer run. -/
def finalTrainedParams (trainEpoch : Params → Nat → Params) (p0 : Params) (n : Nat) : Params :=
  (List.range n).foldl (fun p e => trainEpoch p (e + 1)) p0

/-- Epochs at which CheckpointSaver's periodic saving fires: every
save_interval-th epoch of a run of n epochs (epochs 2 and 4 for the
notebook's n = 5, interval = 2). -/
def intervalSaveEpochs (n interval : Nat) : List Nat :=
  (List.range n).filterMap (fun e => if (e + 1) % interval == 0 then some (e + 1) else none)

/-- Path of the periodic checkpoint of epoch e.  Modelled from the spec: the
framework persists its checkpoints under the saver's save_dir; the periodic
files carry an epoch-stamped name distinct from final_filename. -/
def intervalCheckpointPath (e : Nat) : String :=
  out_dir ++ "/model_epoch=" ++ Nat.repr e ++ ".pt"

/-- Cell 8: MedNISTDataset(root_dir=root_dir, transform=transform,
section="training", download=True).  Modelled from the spec: the dataset
loader invokes "a remote download and local cache", laying out the dataset
archive MedNIST.tar.gz and the extracted MedNIST folder under the data root.
The validation load of cell 8 and the test load of cell 16 pass
download=False and read this cache without writing. -/
def datasetDownload (rootDir : String) (fs : Fs) : Fs :=
  writeFile (rootDir ++ "/MedNIST") FileContent.datasetFolder
    (writeFile (rootDir ++ "/MedNIST.tar.gz") FileContent.datasetArchive fs)

/-- Cell 12: trainer.run().  Modelled from the spec: the supervised trainer
"runs a training loop given a model, data loader, and optimizer/loss, with
attachable lifecycle handlers".  Its CheckpointSaver persists a periodic
checkpoint at every save_interval-th epoch (holding the parameters trained up
to that epoch) and the final parameters to finalCheckpointPath at end of
training, and its TensorBoardStatsHandler writes event logs.  Returns the
filesystem and the final parameters. -/
def trainerRun (trainEpoch : Params → Nat → Params) (p0 : Params) (fs : Fs) : Fs × Params :=
  let pf := finalTrainedParams trainEpoch p0 max_epochs
  let fsInterval := (intervalSaveEpochs max_epochs save_interval).foldl
    (fun acc e => writeFile (intervalCheckpointPath e)
      (FileContent.checkpointFile (finalTrainedParams trainEpoch p0 e)) acc) fs
  (writeFile tensorboardLogPath FileContent.tensorboardEvents
    (writeFile finalCheckpointPath (FileContent.checkpointFile pf) fsInterval), pf)

/-- Errors raised by framework components; the notebook defines none of its
own. -/
inductive EngineError where
  | checkpointLoaderMissing (path : String)
  deriving DecidableEq

/-- Batch order produced by a DataLoader: with shuffle=False the dataset
order is used unchanged; with shuffle=True a permutation of the data (the
nondeterminism of the run, passed in as shuffleOrder) is applied. -/
def loadOrder (cfg : LoaderConfig) (shuffleOrder : List String → List String)
    (data : List String) : List String :=
  if cfg.shuffle then shuffleOrder data else data

/-- Helper for argmax: scan the remaining channels, keeping the index of the
first maximal value seen so far. -/
def argmaxAux : List Int → Nat → Nat → Int → Nat
  | [], _, best, _ => best
  | x :: xs, i, best, bv =>
    if bv < x then argmaxAux xs (i + 1) i x
    else argmaxAux xs (i + 1) best bv

/-- Cell 18: AsDiscreted(keys="pred", argmax=True); the index of the first
largest of the network's output channels. -/
def argmax (xs : List Int) : Nat :=
  match xs with
  | [] => 0
  | x :: xs => argmaxAux xs 1 0 x

/-- One prediction row per test image: the test loader has batch_size=1, so
each batch is a single image, and ClassificationSaver emits one row for each
prediction, pairing the source image path with the argmax of the network
output on that image. -/
def inferenceRows (net : Params → String → List Int) (p : Params)
    (imgs : List String) : List (String × Nat) :=
  imgs.map (fun img => (img, argmax (net p img)))

/-- Cell 18: evaluator.run() of the inference stage.  Modelled from the spec
and the notebook text of cell 17: val_handlers "load the checkpoint file,
providing an error if any file is unavailable", then the evaluator processes
every file of the test data loader and ClassificationSaver persists the
results into the predictions CSV.  Returns the final filesystem and the
parameters used for inference. -/
def evaluatorRun (shuffleOrder : List String → List String)
    (net : Params → String → List Int) (testImages : List String)
    (fs : Fs) : Except EngineError (Fs × Params) :=
  match loadCheckpoint fs checkpointLoadPath with
  | none => Except.error (EngineError.checkpointLoaderMissing checkpointLoadPath)
  | some p =>
    let rows := inferenceRows net p (loadOrder testLoaderConfig shuffleOrder testImages)
    Except.ok (writeFile predictionsCsvPath
      (FileContent.csvFile (rows.map (fun r => predictionLine r.1.data r.2))) fs, p)

/-- The notebook executed end to end: dataset download (cell 8), training
(cell 12), then inference (cell 18), starting from a given filesystem. -/
def notebookPipeline (rootDir : String) (trainEpoch : Params → Nat → Params) (p0 : Params)
    (shuffleOrder : List String → List String)
    (net : Params → String → List Int) (testImages : List String)
    (fs : Fs) : Except EngineError Fs :=
  Except.map (fun r => r.1)
    (evaluatorRun shuffleOrder net testImages
      (trainerRun trainEpoch p0 (datasetDownload rootDir fs)).1)

/-- Paths present in the resulting filesystem log of a pipeline run. -/
def pathsWritten : Except EngineError Fs → List String
  | Except.ok fs => fs.map (fun e => e.1)
  | Except.error _ => []

/-- The top-level actions of the notebook, in cell order. -/
inductive Step where
  | datasetLoad (sectionName : String) (download : Bool)
  | trainerRunStep
  | evaluatorRunStep
  deriving DecidableEq

/-- The notebook's cells in execution order: cell 8 loads the training
section (download=True) and the validation section (download=False), cell 12
runs the trainer, cell 16 loads the test section (download=False), cell 18
runs the inference evaluator. -/
def notebookSteps : List Step :=
  [ Step.datasetLoad "training" true,
    Step.datasetLoad "validation" false,
    Step.trainerRunStep,
    Step.datasetLoad "test" false,
    Step.evaluatorRunStep ]

/-- Whether a step is a MedNISTDataset construction. -/
def isDatasetLoad : Step → Bool
  | Step.datasetLoad _ _ => true
  | _ => false

/-- Whether a step is a dataset construction that requests a remote download. -/
def downloadRequested : Step → Bool
  | Step.datasetLoad _ d => d
  | _ => false

/-- The steps strictly after the first occurrence of a given step. -/
def stepsAfter (s : Step) (l : List Step) : List Step :=
  (l.dropWhile (fun t => !(t == s))).drop 1

/-- Whether some dataset load occurs after the training step. -/
def datasetLoadAfterTraining (l : List Step) : Bool :=
  (stepsAfter Step.trainerRunStep l).any isDatasetLoad

/-- Cell 10: ValidationHandler(validator=evaluator, epoch_level=True,
interval=1); the validation interval in epochs. -/
def validationInterval : Nat := 1

/-- Cell 10: ValidationHandler epoch_level=True. -/
def validationEpochLevel : Bool := true

/-- Lifecycle events of one trainer run. -/
inductive TrainerEvent where
  | epochCompleted (n : Nat)
  | validationRun (n : Nat)
  deriving DecidableEq

/-- Modelled from the spec: a handler is "a pluggable callback attached to
framework lifecycle events (e.g., end of epoch)"; with epoch_level=True and a
given interval the ValidationHandler runs its validator at the end of every
interval-th epoch.  The trace lists the lifecycle events of one trainer run
over maxE epochs. -/
def trainerTrace (maxE interval : Nat) : List TrainerEvent :=
  (List.range maxE).flatMap (fun e =>
    TrainerEvent.epochCompleted (e + 1) ::
      (if validationEpochLevel && (e + 1) % interval == 0 then
        [TrainerEvent.validationRun (e + 1)]
      else []))

/-- Whether a trainer lifecycle event is a validation run. -/
def isValidationRun : TrainerEvent → Bool
  | TrainerEvent.validationRun _ => true
  | _ => false

/-! ## Helper lemmas -/

/-- A comma-free character list splits into a single column. -/
theorem splitOnComma_eq_single (l : List Char) (h : commaChar ∉ l) :
    splitOnComma l = [l] := by
  induction l with
  | nil => rfl
  | cons c cs ih =>
    have hc : ¬ c = commaChar := fun hch => h (hch ▸ List.mem_cons_self c cs)
    have hcs : commaChar ∉ cs := fun hm => h (List.mem_cons_of_mem c hm)
    simp [splitOnComma, hc, ih hcs]

/-- Splitting after a comma-free first column yields that column followed by
the split of the rest. -/
theorem splitOnComma_append (a b : List Char) (h : commaChar ∉ a) :
    splitOnComma (a ++ commaChar :: b) = a :: splitOnComma b := by
  induction a with
  | nil => simp [splitOnComma]
  | cons c cs ih =>
    have hc : ¬ c = commaChar := fun hch => h (hch ▸ List.mem_cons_self c cs)
    have hcs : commaChar ∉ cs := fun hm => h (List.mem_cons_of_mem c hm)
    simp [splitOnComma, hc, ih hcs]

/-- Digit characters are never the comma delimiter. -/
theorem digitChar_ne_comma (d : Nat) (h : d < 10) : digitChar d ≠ commaChar := by
  have hAll : ∀ k : Fin 10, digitChar k.val ≠ commaChar := by decide
  exact hAll ⟨d, h⟩

/-- The fuelled decimal printer introduces no comma. -/
theorem natCharsAux_no_comma (fuel : Nat) :
    ∀ (n : Nat) (acc : List Char), commaChar ∉ acc →
      commaChar ∉ natCharsAux fuel n acc := by
  induction fuel with
  | zero => intro n acc h; simpa [natCharsAux] using h
  | succ f ih =>
    intro n acc h
    by_cases hn : n < 10
    · simp only [natCharsAux, if_pos hn, List.mem_cons, not_or]
      exact ⟨fun he => digitChar_ne_comma n hn he.symm, h⟩
    · simp only [natCharsAux, if_neg hn]
      refine ih (n / 10) (digitChar (n % 10) :: acc) ?_
      simp only [List.mem_cons, not_or]
      exact ⟨fun he => digitChar_ne_comma (n % 10) (Nat.mod_lt n (by omega)) he.symm, h⟩

/-- The decimal representation of a natural number contains no comma. -/
theorem natChars_no_comma (n : Nat) : commaChar ∉ natChars n :=
  natCharsAux_no_comma (n + 1) n [] (by simp)

/-- The scanning helper returns an index below the bound it scans up to. -/
theorem argmaxAux_lt (xs : List Int) :
    ∀ (i best : Nat) (bv : Int), best < i →
      argmaxAux xs i best bv < i + xs.length := by
  induction xs with
  | nil => intro i best bv h; simpa [argmaxAux] using h
  | cons x t ih =>
    intro i best bv h
    simp only [argmaxAux, List.length_cons]
    by_cases hx : bv < x
    · have := ih (i + 1) i x (Nat.lt_succ_self i)
      simp only [if_pos hx]
      omega
    · have := ih (i + 1) best bv (by omega)
      simp only [if_neg hx]
      omega

/-- The argmax of a nonempty channel list is a valid channel index. -/
theorem argmax_lt (xs : List Int) (h : xs ≠ []) : argmax xs < xs.length := by
  cases xs with
  | nil => exact absurd rfl h
  | cons x t =>
    have := argmaxAux_lt t 1 0 x (by omega)
    simp only [argmax, List.length_cons]
    omega

/-! ## Claim theorems -/

/-- C1: every row of the predictions output is comma-delimited with exactly
two columns, the source image path and the predicted class index, and the
class index is resolved by indexing into the alphabetically sorted list of
class directory names under the dataset directory. -/
theorem predictions_file_two_columns_sorted_classes
    (path : List Char) (idx : Nat) (entries : List DirEntry)
    (hp : commaChar ∉ path) :
    splitOnComma (predictionLine path idx) = [path, natChars idx] ∧
    List.Sorted (· ≤ ·) (class_names entries) ∧
    (∀ s, s ∈ class_names entries ↔ ∃ e, e ∈ entries ∧ e.isDir = true ∧ e.name = s) ∧
    resolveClass (class_names entries) idx = (class_names entries)[idx]? := by
  refine ⟨?_, ?_, ?_, rfl⟩
  · have hd : commaChar ∉ natChars idx := natChars_no_comma idx
    have hsplit : predictionLine path idx = path ++ commaChar :: natChars idx := by
      simp [predictionLine]
    rw [hsplit, splitOnComma_append path _ hp, splitOnComma_eq_single _ hd]
  · exact List.sorted_insertionSort (· ≤ ·) _
  · intro s
    have hperm :=
      (List.perm_insertionSort (· ≤ ·)
        (((entries.filter (fun e => e.isDir)).map (fun e => e.name)))).mem_iff (a := s)
    rw [class_names, hperm]
    simp [List.mem_map, List.mem_filter, and_assoc]

/-- Witness for C1 at a concrete path, index and directory listing. -/
theorem predictions_file_two_columns_sorted_classes_witness :
    commaChar ∉ ['i', 'm', 'g'] ∧
    splitOnComma (predictionLine ['i', 'm', 'g'] 12) = [['i', 'm', 'g'], natChars 12] :=
  ⟨by decide,
    (predictions_file_two_columns_sorted_classes ['i', 'm', 'g'] 12
      [⟨"AbdomenCT", true⟩, ⟨"Hand", true⟩] (by decide)).1⟩

/-- C2: the inference stage emits exactly one prediction row per test image,
and every predicted class index lies in the range [0, out_channels) with
out_channels = 6, because the postprocessing takes an argmax over the
network's 6 output channels and the test loader uses batch size 1. -/
theorem predictions_one_row_per_image_index_lt
    (net : Params → String → List Int) (p : Params) (imgs : List String)
    (hlen : ∀ img, (net p img).length = out_channels) :
    (inferenceRows net p imgs).length = imgs.length ∧
    (∀ r ∈ inferenceRows net p imgs, r.2 < out_channels) ∧
    out_channels = 6 ∧ testLoaderConfig.batch_size = 1 := by
  refine ⟨List.length_map _ _, ?_, rfl, rfl⟩
  intro r hr
  simp only [inferenceRows, List.mem_map] at hr
  obtain ⟨img, _, rfl⟩ := hr
  have hne : net p img ≠ [] := by
    intro hnil
    have := hlen img
    rw [hnil] at this
    simp [out_channels] at this
  have := argmax_lt (net p img) hne
  rw [hlen img] at this
  exact this

/-- Witness for C2 with a concrete 6-channel network and two test images. -/
theorem predictions_one_row_per_image_index_lt_witness :
    (inferenceRows (fun _ _ => [0, 3, 1, 0, 0, 0]) [] ["a.jpeg", "b.jpeg"]).length = 2 ∧
    ∀ r ∈ inferenceRows (fun _ _ => [0, 3, 1, 0, 0, 0]) [] ["a.jpeg", "b.jpeg"],
      r.2 < out_channels := by
  have h := predictions_one_row_per_image_index_lt
    (fun _ _ => [0, 3, 1, 0, 0, 0]) [] ["a.jpeg", "b.jpeg"] (fun _ => rfl)
  exact ⟨h.1, h.2.1⟩

/-- C3: the parameters the trainer's CheckpointSaver persists to
./eval/checkpoint.pt at end of training are exactly the parameters the
inference evaluator's CheckpointLoader restores from the same path, so
inference runs with the final trained weights. -/
theorem checkpoint_roundtrip_final_params
    (trainEpoch : Params → Nat → Params) (p0 : Params)
    (shuffleOrder : List String → List String)
    (net : Params → String → List Int) (imgs : List String) (fs : Fs) :
    Except.map (fun r => r.2)
        (evaluatorRun shuffleOrder net imgs (trainerRun trainEpoch p0 fs).1) =
      Except.ok (trainerRun trainEpoch p0 fs).2 ∧
    finalCheckpointPath = checkpointLoadPath := by
  exact ⟨rfl, rfl⟩

/-- C4: the data root directory is selected by the MONAI_DATA_DIRECTORY
environment variable when set, and is the freshly created temporary directory
otherwise. -/
theorem data_dir_env_selection (env : String → Option String) (tmp : String) :
    (env monaiDataDirVar = none → root_dir env tmp = tmp) ∧
    (∀ d, env monaiDataDirVar = some d → root_dir env tmp = d) := by
  constructor
  · intro h; simp [root_dir, h]
  · intro d h; simp [root_dir, h]

/-- Witness for C4 with a concrete unset and a concrete set environment. -/
theorem data_dir_env_selection_witness :
    root_dir (fun _ => none) "/tmp/tmpabc" = "/tmp/tmpabc" ∧
    root_dir (fun v => if v == "MONAI_DATA_DIRECTORY" then some "/workspace/Data" else none)
      "/tmp/tmpabc" = "/workspace/Data" := by
  constructor
  · exact (data_dir_env_selection (fun _ => none) "/tmp/tmpabc").1 rfl
  · exact (data_dir_env_selection
      (fun v => if v == "MONAI_DATA_DIRECTORY" then some "/workspace/Data" else none)
      "/tmp/tmpabc").2 "/workspace/Data" (by decide)

/-- C5: the hyperparameters are fixed constants of the notebook: epoch count
5, checkpoint save interval 2, training and validation batch size 512, test
batch size 1. -/
theorem hyperparameters_hard_coded :
    max_epochs = 5 ∧ save_interval = 2 ∧
    trainLoaderConfig.batch_size = 512 ∧ valLoaderConfig.batch_size = 512 ∧
    testLoaderConfig.batch_size = 1 := by
  decide

/-- C6 counterexample: the claim that no file other than the framework's
checkpoint file is laid out on disk fails on a concrete end-to-end run: the
pipeline also writes ./predictions.csv, which is not the checkpoint path. -/
theorem files_written_counterexample :
    predictionsCsvPath ∈ pathsWritten
      (notebookPipeline "/workspace/Data" (fun p _ => p) [] id
        (fun _ _ => [1, 0, 0, 0, 0, 0]) ["img.jpeg"] []) ∧
    predictionsCsvPath ≠ finalCheckpointPath := by
  constructor
  · decide
  · decide

/-- C6 amended: an end-to-end run lays out exactly these paths: the
predictions CSV (ClassificationSaver), the TensorBoard event logs
(TensorBoardStatsHandler), the framework's final checkpoint file and its
periodic checkpoints of epochs 4 and 2 under ./eval (CheckpointSaver with
save_interval=2), and the dataset archive and extracted dataset folder under
the data root (MedNISTDataset with download=True); all are written by
framework components, and the notebook itself defines no further persisted
state. -/
theorem files_written_amended (rootDir : String)
    (trainEpoch : Params → Nat → Params) (p0 : Params)
    (shuffleOrder : List String → List String)
    (net : Params → String → List Int) (imgs : List String) :
    pathsWritten (notebookPipeline rootDir trainEpoch p0 shuffleOrder net imgs []) =
      [predictionsCsvPath, tensorboardLogPath, finalCheckpointPath,
       intervalCheckpointPath 4, intervalCheckpointPath 2,
       rootDir ++ "/MedNIST", rootDir ++ "/MedNIST.tar.gz"] := by
  rfl

/-- C7: when the checkpoint file is unavailable, the inference evaluator's
run fails with the error raised inside the CheckpointLoader component, and
the notebook propagates it unchanged (it installs no handler of its own). -/
theorem missing_checkpoint_error_from_loader
    (shuffleOrder : List String → List String)
    (net : Params → String → List Int) (imgs : List String) (fs : Fs)
    (h : loadCheckpoint fs checkpointLoadPath = none) :
    evaluatorRun shuffleOrder net imgs fs =
      Except.error (EngineError.checkpointLoaderMissing checkpointLoadPath) := by
  simp [evaluatorRun, h]

/-- Witness for C7 on the empty filesystem. -/
theorem missing_checkpoint_error_from_loader_witness :
    loadCheckpoint [] checkpointLoadPath = none ∧
    evaluatorRun id (fun _ _ => []) [] [] =
      Except.error (EngineError.checkpointLoaderMissing checkpointLoadPath) :=
  ⟨rfl, missing_checkpoint_error_from_loader id (fun _ _ => []) [] [] rfl⟩

/-- C8 counterexample: the claim places all dataset loading before
trainer.run(), but in the notebook the test section is loaded after the
training step (cell 16 follows cell 12). -/
theorem step_order_counterexample :
    datasetLoadAfterTraining notebookSteps = true := by
  decide

/-- C8 amended: the notebook's steps occur in a fixed order in which a remote
download is requested only for the training section; the training and
validation sections are loaded before trainer.run(), the test section is
loaded with download disabled after training and before evaluator.run(), and
nothing follows evaluator.run(). -/
theorem step_order_amended :
    notebookSteps.filter downloadRequested = [Step.datasetLoad "training" true] ∧
    (notebookSteps.takeWhile (fun t => !(t == Step.trainerRunStep))).filter isDatasetLoad =
      [Step.datasetLoad "training" true, Step.datasetLoad "validation" false] ∧
    stepsAfter Step.trainerRunStep notebookSteps =
      [Step.datasetLoad "test" false, Step.evaluatorRunStep] ∧
    stepsAfter Step.evaluatorRunStep notebookSteps = [] := by
  decide

/-- C9: with epoch_level=True and interval=1 the validation evaluator runs at
the end of every training epoch, so with max_epochs=5 the validation metric
is computed exactly 5 times, over an unshuffled validation loader. -/
theorem validation_every_epoch_five_times :
    ((trainerTrace max_epochs validationInterval).filter isValidationRun).length = 5 ∧
    trainerTrace max_epochs validationInterval =
      [TrainerEvent.epochCompleted 1, TrainerEvent.validationRun 1,
       TrainerEvent.epochCompleted 2, TrainerEvent.validationRun 2,
       TrainerEvent.epochCompleted 3, TrainerEvent.validationRun 3,
       TrainerEvent.epochCompleted 4, TrainerEvent.validationRun 4,
       TrainerEvent.epochCompleted 5, TrainerEvent.validationRun 5] ∧
    valLoaderConfig.shuffle = false := by
  decide

/-- C10: inference export is deterministic for a fixed checkpoint and test
dataset: the test loader has shuffle=False (and num_workers=0), so the run's
nondeterminism parameter (the shuffle order) cannot influence the produced
predictions file, and two runs yield identical rows in identical order. -/
theorem inference_deterministic
    (shuffleOrder1 shuffleOrder2 : List String → List String)
    (net : Params → String → List Int) (imgs : List String) (fs : Fs) :
    evaluatorRun shuffleOrder1 net imgs fs = evaluatorRun shuffleOrder2 net imgs fs := by
  rfl

end Monai201
